import Mathlib

/-!
Shallow embedding of the Ultarpair moderation bot core
(src/moderation.py, src/scheduler.py, src/database.py).

External services (Telegram API, PostgreSQL) are modelled by explicit
parameters: database tables are passed in and returned, fallible platform
calls take a Boolean/outcome oracle, and every platform call or database
write performed by the code is recorded as an event in an output trace.
The third-party `fuzz.token_set_ratio` similarity function is an opaque
parameter `ratio : String → String → Nat` (the code only compares its
result against the threshold 90).
-/

namespace Ultarpair

/-- Python `pat in s` substring test, specialised to the head position:
`leadsWith pat s` holds when `s` starts with `pat`. -/
def leadsWith : List Char → List Char → Bool
  | [], _ => true
  | _ :: _, [] => false
  | a :: as, b :: bs => a == b && leadsWith as bs

/-- Python `pat in s` (substring containment), used for the `in` checks in
`handle_message` (`word in text_lower`, `domain in text_to_check`). -/
def containsSub : List Char → List Char → Bool
  | [], pat => leadsWith pat []
  | s@(_ :: rest), pat => leadsWith pat s || containsSub rest pat

/-- One character of Python `html.escape(s, quote=True)` (used on user/chat
names before they are spliced into bot messages). -/
def escChar (c : Char) : String :=
  if c = '&' then "&amp;"
  else if c = '<' then "&lt;"
  else if c = '>' then "&gt;"
  else if c = '"' then "&quot;"
  else if c = Char.ofNat 39 then "&#x27;"
  else String.singleton c

/-- Python `html.escape` with default `quote=True`. -/
def htmlEscape (s : String) : String :=
  String.join (s.data.map escChar)

/-- Python truthiness of an optional string: `None` and `""` are falsy. -/
def truthy : Option String → Option String
  | some s => if s = "" then none else some s
  | none => none

/-- Python `str.lower()` (ASCII, which covers every string the code
lowers). -/
def lowerStr (s : String) : String :=
  ⟨s.data.map Char.toLower⟩

/-- Python `" ".join(parts)`. -/
def joinSpace : List String → String
  | [] => ""
  | x :: xs =>
    match xs with
    | [] => x
    | _ :: _ => x ++ " " ++ joinSpace xs

/-- Worker for `pyReplace`, structurally recursive on a fuel bounded by
the subject's length. -/
def replaceFuel (pat rep : List Char) : Nat → List Char → List Char
  | _, [] => []
  | 0, s => s
  | Nat.succ f, c :: rest =>
    if leadsWith pat (c :: rest) then
      rep ++ replaceFuel pat rep f (List.drop (pat.length - 1) rest)
    else c :: replaceFuel pat rep f rest

/-- Python `s.replace(pat, rep)` for a non-empty `pat` (the code only
replaces the literal placeholders, which are non-empty). -/
def pyReplace (s pat rep : String) : String :=
  ⟨replaceFuel pat.data rep.data s.data.length s.data⟩

/-- The `group_settings` row for one chat, with the defaults used by
`database.get_group_settings`. -/
structure GroupSettings where
  antibot_enabled : Bool
  antilink_enabled : Bool
  antiword_enabled : Bool
  antilink_warn_limit : Int
  antiword_warn_limit : Int
  welcome_enabled : Bool
  welcome_message : Option String
deriving DecidableEq

/-- The defaults of `database.get_group_settings` (returned when no row
exists, or on a store error). -/
def defaultSettings : GroupSettings :=
  { antibot_enabled := false
    antilink_enabled := false
    antiword_enabled := false
    antilink_warn_limit := 3
    antiword_warn_limit := 3
    welcome_enabled := false
    welcome_message := none }

/-- A row of the `scheduled_jobs` table.  `run_at` is modelled as seconds
since an arbitrary epoch. -/
structure Job where
  id : Nat
  job_type : String
  chat_id : Int
  target_id : Int
  run_at : Int
deriving DecidableEq

/-- `database.add_job`: validates `job_type not in ['unpin']` and rejects
(returning `False`, storing nothing) any other job type; on the accepted
type it inserts a new row (the SERIAL id is modelled as one past the
largest existing id). -/
def add_job (job_type : String) (chat_id target_id : Int) (run_at : Int)
    (jobs : List Job) : Bool × List Job :=
  if !(["unpin"].contains job_type) then (false, jobs)
  else
    let fresh := (jobs.map Job.id).foldr max 0 + 1
    (true, jobs ++ [⟨fresh, job_type, chat_id, target_id, run_at⟩])

/-- Insertion step of the `ORDER BY run_at` of `database.get_due_jobs`. -/
def insertByRunAt (j : Job) : List Job → List Job
  | [] => [j]
  | x :: xs => if j.run_at ≤ x.run_at then j :: x :: xs else x :: insertByRunAt j xs

/-- `ORDER BY run_at` of `database.get_due_jobs`. -/
def sortByRunAt : List Job → List Job
  | [] => []
  | x :: xs => insertByRunAt x (sortByRunAt xs)

/-- `database.get_due_jobs`: `SELECT * FROM scheduled_jobs WHERE
run_at <= NOW() AND job_type = 'unpin' ORDER BY run_at FOR UPDATE SKIP
LOCKED`.  Note the query restricts to `job_type = 'unpin'`. -/
def get_due_jobs (now : Int) (jobs : List Job) : List Job :=
  sortByRunAt (jobs.filter (fun j => j.run_at ≤ now && j.job_type == "unpin"))

/-- Outcome of the platform call a scheduler job performs: success, a
`Forbidden`/`BadRequest` error, or any other exception. -/
inductive ExecOutcome
  | success
  | permError
  | otherError
deriving DecidableEq

/-- Platform calls made by `scheduler.process_jobs` for a job. -/
inductive SchedAction
  | restoreSendPerms (chat user : Int)
  | unpinMsg (chat msg : Int)
deriving DecidableEq

/-- What one iteration of the job loop in `scheduler.process_jobs` did:
whether the row was deleted, the platform calls attempted, and whether a
`logger.warning` was emitted (only the `Forbidden`/`BadRequest` handler
warns). -/
structure JobResult where
  deleted : Bool
  actions : List SchedAction
  warned : Bool
deriving DecidableEq

/-- The body of the per-job loop in `scheduler.process_jobs`: dispatch on
`job_type` (`'unmute'` restores permissions, `'unpin'` unpins; any other
type performs no platform call and falls through to `delete_job`), then
classify the outcome: success deletes the row, `Forbidden`/`BadRequest`
deletes the row after a warning log, any other error keeps the row. -/
def processJob (outc : ExecOutcome) (j : Job) : JobResult :=
  if j.job_type == "unmute" then
    match outc with
    | .success => ⟨true, [.restoreSendPerms j.chat_id j.target_id], false⟩
    | .permError => ⟨true, [.restoreSendPerms j.chat_id j.target_id], true⟩
    | .otherError => ⟨false, [.restoreSendPerms j.chat_id j.target_id], false⟩
  else if j.job_type == "unpin" then
    match outc with
    | .success => ⟨true, [.unpinMsg j.chat_id j.target_id], false⟩
    | .permError => ⟨true, [.unpinMsg j.chat_id j.target_id], true⟩
    | .otherError => ⟨false, [.unpinMsg j.chat_id j.target_id], false⟩
  else
    ⟨true, [], false⟩

/-- One cycle of `scheduler.process_jobs`: fetch the due jobs and run the
loop body on each, with `outc` giving each claimed job's platform-call
outcome by job id. -/
def process_jobs (outc : Nat → ExecOutcome) (now : Int) (jobs : List Job) :
    List (Job × JobResult) :=
  (get_due_jobs now jobs).map (fun j => (j, processJob (outc j.id) j))

/-- Key of the `user_warnings` table: `(chat_id, user_id, warn_type)`
(its UNIQUE constraint). -/
structure WarnKey where
  chat_id : Int
  user_id : Int
  warn_type : String
deriving DecidableEq

/-- The `user_warnings` table: rows `(key, warn_count)`. -/
abbrev WarnTable := List (WarnKey × Int)

/-- `database.get_user_warnings` (without the 0 default): the `warn_count`
of the row for `k`, if present. -/
def warnLookup (tbl : WarnTable) (k : WarnKey) : Option Int :=
  (tbl.find? (fun p => decide (p.1 = k))).map Prod.snd

/-- `database.add_user_warning` (the successful path): atomic
`INSERT ... VALUES (.., 1) ON CONFLICT DO UPDATE SET warn_count =
warn_count + 1 RETURNING warn_count`.  Returns the new count and the
updated table. -/
def warnUpsert (tbl : WarnTable) (k : WarnKey) : Int × WarnTable :=
  match warnLookup tbl k with
  | some c => (c + 1, tbl.map (fun p => if p.1 = k then (k, c + 1) else p))
  | none => (1, tbl ++ [(k, 1)])

/-- `database.reset_user_warnings`: `DELETE FROM user_warnings WHERE ...`
(the row becomes absent, not zero). -/
def warnReset (tbl : WarnTable) (k : WarnKey) : WarnTable :=
  tbl.filter (fun p => decide (p.1 ≠ k))

/-- Events of `moderation.handle_violation`: the platform calls and
`user_warnings` operations it performs, in order. -/
inductive VEv
  | delMsg
  | dbAddWarning (k : WarnKey) (result : Int)
  | restrict (chat user : Int) (untilSec : Int)
  | dbReset (k : WarnKey)
  | send (chat : Int) (text : String)
  | delNotice
deriving DecidableEq

/-- `moderation.handle_violation`.  Steps: best-effort delete of the
offending message; `add_user_warning` (`addOk = false` models its `-1`
error return, which aborts the handler); if the new count reaches
`warn_limit`, restrict the user's send permission until now + 1 hour
(`restrictOk = false` models that call raising, which skips the rest of
the `try` block), then reset the counter row, then send an auto-deleted
mute notice; otherwise send an auto-deleted "N/limit" warning notice. -/
def handle_violation (wt : String) (chat user : Int) (uname : String)
    (limit now : Int) (addOk restrictOk : Bool) (tbl : WarnTable) :
    List VEv × WarnTable :=
  let k : WarnKey := ⟨chat, user, wt⟩
  if addOk then
    let n := (warnUpsert tbl k).1
    let tbl1 := (warnUpsert tbl k).2
    if n ≥ limit then
      if restrictOk then
        ([VEv.delMsg, VEv.dbAddWarning k n, VEv.restrict chat user (now + 3600),
          VEv.dbReset k,
          VEv.send chat ("User " ++ htmlEscape uname ++ " has been muted for 1 hour due to "
            ++ (if wt = "antilink" then "link spam" else "bad words") ++ "."),
          VEv.delNotice],
         warnReset tbl1 k)
      else
        ([VEv.delMsg, VEv.dbAddWarning k n, VEv.restrict chat user (now + 3600)], tbl1)
    else
      ([VEv.delMsg, VEv.dbAddWarning k n,
        VEv.send chat (htmlEscape uname ++ ", "
          ++ (if wt = "antilink" then "Links" else "Bad words")
          ++ " are not allowed. (Warning " ++ toString n ++ "/" ++ toString limit ++ ")"),
        VEv.delNotice],
       tbl1)
  else
    ([VEv.delMsg, VEv.dbAddWarning k (-1)], tbl)

/-- The joining user's identity fields, as read by
`moderation.check_new_member`.  Optional fields model Python falsiness
(`None`; the empty string is handled by `truthy`). -/
structure TgUser where
  id : Int
  is_bot : Bool
  username : Option String
  first_name : Option String
  last_name : Option String
  full_name : String
deriving DecidableEq

/-- A `chat_member` update as consumed by `moderation.check_new_member`. -/
structure JoinEvent where
  new_status : String
  old_status : String
  user : TgUser
  chat_id : Int
  chat_title : String
deriving DecidableEq

/-- The probe string of `check_new_member`: the truthy identity fields
(username, first name, last name, in that order), lower-cased and joined
with single spaces. -/
def probeText (u : TgUser) : String :=
  joinSpace (([u.username, u.first_name, u.last_name].filterMap truthy).map lowerStr)

/-- The blacklist scan of `check_new_member`: on a non-empty probe string,
the first term whose `fuzz.token_set_ratio` against the probe reaches the
`SIMILARITY_THRESHOLD` of 90 (the loop returns on the first hit). -/
def blacklistHit (blacklist : List String) (ratio : String → String → Nat)
    (probe : String) : Option String :=
  if probe ≠ "" then blacklist.find? (fun t => decide (90 ≤ ratio t probe)) else none

/-- Events of `moderation.check_new_member`: platform calls and the
`add_job` database write, in order. -/
inductive GateEv
  | banUser (chat user : Int)
  | send (chat : Int) (text : String)
  | delSent
  | dbAddJob (job_type : String) (chat target : Int) (run_at : Int) (ok : Bool)
deriving DecidableEq

/-- `moderation.check_new_member`.  Control flow: ignore non-join
transitions; if the user is a bot and `antibot_enabled`, ban it (and on
success send an auto-deleted notice) and stop; otherwise scan the
blacklist against the probe string and on a hit ban (sending an
auto-deleted notice on success, or a persistent "Action Failed!" notice
when the ban raises) and stop; otherwise, if `welcome_enabled` and a
truthy template is set, send the rendered welcome and call
`add_job("delete_message", chat, sent_message_id, now + 1 minute)`.
`banOk` is the outcome oracle for `ban_chat_member`; `welcomeMsgId` is
the id the platform assigns to the sent welcome message. -/
def check_new_member (settings : GroupSettings) (blacklist : List String)
    (ratio : String → String → Nat) (banOk : Bool) (welcomeMsgId : Int)
    (now : Int) (ev : JoinEvent) (jobs : List Job) : List GateEv × List Job :=
  if ev.new_status ≠ "member" then ([], jobs)
  else if ["creator", "administrator", "member"].contains ev.old_status then ([], jobs)
  else if ev.user.is_bot && settings.antibot_enabled then
    (if banOk then
      [GateEv.banUser ev.chat_id ev.user.id,
       GateEv.send ev.chat_id ("Removed bot " ++ htmlEscape ev.user.full_name ++ "."),
       GateEv.delSent]
     else [GateEv.banUser ev.chat_id ev.user.id], jobs)
  else
    match blacklistHit blacklist ratio (probeText ev.user) with
    | some term =>
      (if banOk then
        [GateEv.banUser ev.chat_id ev.user.id,
         GateEv.send ev.chat_id ("Auto-removal: " ++ htmlEscape ev.user.full_name
           ++ ". (Blacklist match: <b>" ++ term ++ "</b>)."),
         GateEv.delSent]
       else
        [GateEv.banUser ev.chat_id ev.user.id,
         GateEv.send ev.chat_id ("Action Failed!\nUser " ++ htmlEscape ev.user.full_name
           ++ " matches the blacklist, but I could not remove them.")], jobs)
    | none =>
      if settings.welcome_enabled then
        match truthy settings.welcome_message with
        | some msg =>
          let rendered := pyReplace (pyReplace msg "\x7buser_name\x7d" (htmlEscape ev.user.full_name))
            "\x7bchat_name\x7d" (htmlEscape ev.chat_title)
          ([GateEv.send ev.chat_id rendered,
            GateEv.dbAddJob "delete_message" ev.chat_id welcomeMsgId (now + 60)
              (add_job "delete_message" ev.chat_id welcomeMsgId (now + 60) jobs).1],
           (add_job "delete_message" ev.chat_id welcomeMsgId (now + 60) jobs).2)
        | none => ([], jobs)
      else ([], jobs)

/-- A structured link entity attached to a message (`type` is `"url"`,
`"text_link"`, or any other entity type; `url` is set on text links). -/
structure Entity where
  type : String
  url : Option String
deriving DecidableEq

/-- A text message as consumed by `moderation.handle_message`. -/
structure Msg where
  text : String
  entities : List Entity
deriving DecidableEq

/-- Character class `[\w-]` of the link pattern in `handle_message`
(ASCII word characters or a hyphen). -/
def isLinkWordChar (c : Char) : Bool :=
  c.isAlphanum || c = Char.ofNat 95 || c = Char.ofNat 45

/-- Existence of a match of `[\w-]+\.[\w-]+` somewhere in the character
list: a dot with a `[\w-]` character on each side. -/
def dotMid : List Char → Bool
  | a :: '.' :: b :: rest =>
    (isLinkWordChar a && isLinkWordChar b) || dotMid ('.' :: b :: rest)
  | _ :: rest => dotMid rest
  | [] => false

/-- `re.search(r'(t\.me/|https?://|[\w-]+\.[\w-]+)', s)` as a Boolean:
the alternation matches somewhere in `s`. -/
def linkRegexMatches (s : String) : Bool :=
  containsSub s.data "t.me/".data || containsSub s.data "http://".data
    || containsSub s.data "https://".data || dotMid s.data

/-- The link-detection step of `handle_message`: returns `has_link` and
the final `text_to_check`.  The entity loop runs only when the plain-text
pattern found nothing, stops at the first `url`/`text_link` entity, and
appends the lower-cased target URL only for a `text_link` with a truthy
`url`. -/
def linkScan (m : Msg) : Bool × String :=
  let t0 := lowerStr m.text
  if linkRegexMatches t0 then (true, t0)
  else
    match m.entities.find? (fun e => e.type == "url" || e.type == "text_link") with
    | some e =>
      (true,
       if e.type == "text_link" then
         match truthy e.url with
         | some u => t0 ++ " " ++ lowerStr u
         | none => t0
       else t0)
    | none => (false, t0)

/-- `has_link` of `handle_message`. -/
def hasLinkMsg (m : Msg) : Bool := (linkScan m).1

/-- The combined `text_to_check` that `handle_message` compares the
domain allow-list against. -/
def linkCheckText (m : Msg) : String := (linkScan m).2

/-- `moderation.handle_message`, returning the `warn_type` of the single
violation it hands to `handle_violation`, if any (the handler returns
right after a hit, so at most one violation is processed per message).
`admin` is the result of `is_admin`; `fromBot` is the guard against the
bot's own messages; `words` is the group's antiword list and `allowed`
its antilink allow-list. -/
def handle_message (settings : GroupSettings) (words allowed : List String)
    (admin fromBot : Bool) (m : Msg) : Option String :=
  if fromBot then none
  else if m.text = "" then none
  else if !settings.antilink_enabled && !settings.antiword_enabled then none
  else if admin then none
  else if settings.antiword_enabled && !words.isEmpty
      && words.any (fun w => containsSub (lowerStr m.text).data w.data) then
    some "antiword"
  else if settings.antilink_enabled then
    if (linkScan m).1 then
      if allowed.any (fun d => containsSub (linkScan m).2.data d.data) then none
      else some "antilink"
    else none
  else none

/-! ## Helper lemmas -/

theorem mem_insertByRunAt (j x : Job) :
    ∀ l : List Job, x ∈ insertByRunAt j l ↔ x = j ∨ x ∈ l
  | [] => by simp [insertByRunAt]
  | a :: l => by
    by_cases h : j.run_at ≤ a.run_at
    · simp [insertByRunAt, h]
    · simp [insertByRunAt, h, mem_insertByRunAt j x l]
      tauto

theorem mem_sortByRunAt (x : Job) : ∀ l : List Job, x ∈ sortByRunAt l ↔ x ∈ l
  | [] => Iff.rfl
  | a :: l => by simp [sortByRunAt, mem_insertByRunAt, mem_sortByRunAt x l]

theorem warnLookup_cons (q : WarnKey × Int) (l : WarnTable) (k : WarnKey) :
    warnLookup (q :: l) k = if q.1 = k then some q.2 else warnLookup l k := by
  by_cases h : q.1 = k <;> simp [warnLookup, List.find?_cons, h]

theorem warnLookup_warnReset (k : WarnKey) :
    ∀ tbl : WarnTable, warnLookup (warnReset tbl k) k = none
  | [] => rfl
  | p :: ts => by
    have ih := warnLookup_warnReset k ts
    by_cases h : p.1 = k <;>
      simp [warnReset, List.filter_cons, h, warnLookup_cons] <;>
      simpa [warnReset] using ih

theorem warnLookup_map_update (k : WarnKey) (v : Int) :
    ∀ tbl : WarnTable,
      warnLookup (tbl.map (fun p => if p.1 = k then (k, v) else p)) k =
        (warnLookup tbl k).map (fun _ => v)
  | [] => rfl
  | p :: ts => by
    have ih := warnLookup_map_update k v ts
    by_cases h : p.1 = k <;> simp [List.map_cons, h, warnLookup_cons, ih]

theorem warnLookup_append_single (k : WarnKey) (v : Int) :
    ∀ tbl : WarnTable, warnLookup tbl k = none →
      warnLookup (tbl ++ [(k, v)]) k = some v
  | [], _ => by simp [warnLookup_cons, warnLookup]
  | p :: ts, h => by
    rw [warnLookup_cons] at h
    by_cases hp : p.1 = k
    · rw [if_pos hp] at h
      exact absurd h (by simp)
    · rw [if_neg hp] at h
      rw [List.cons_append, warnLookup_cons, if_neg hp]
      exact warnLookup_append_single k v ts h

theorem warnLookup_warnUpsert (tbl : WarnTable) (k : WarnKey) :
    warnLookup (warnUpsert tbl k).2 k = some (warnUpsert tbl k).1 := by
  unfold warnUpsert
  cases h : warnLookup tbl k with
  | some c => simp [warnLookup_map_update, h]
  | none => simpa using warnLookup_append_single k 1 tbl h

theorem find?_first_hit {α : Type} (p : α → Bool) :
    ∀ (l1 : List α) (t : α) (l2 : List α),
      (∀ x ∈ l1, p x = false) → p t = true → (l1 ++ t :: l2).find? p = some t
  | [], t, l2, _, ht => by simp [List.find?, ht]
  | a :: l1, t, l2, hall, ht => by
    have ha : p a = false := hall a (by simp)
    simpa [List.find?, ha] using
      find?_first_hit p l1 t l2 (fun x hx => hall x (by simp [hx])) ht

theorem warnUpsert_fst_of_lookup (tbl : WarnTable) (k : WarnKey) (c : Int)
    (h : warnLookup tbl k = some c) : (warnUpsert tbl k).1 = c + 1 := by
  unfold warnUpsert
  rw [h]

/-! ## Claim theorems -/

/-- C1.  The claim says that after sending the welcome message the gate
stores a `delete_message` job row with the sent message id and
`run_at = now + 1 minute`.  The code calls `add_job("delete_message", ...)`
exactly so, but `database.add_job` rejects every `job_type` other than
`'unpin'` and stores nothing: at a concrete join (welcome enabled,
template set, user not removed) the welcome is sent and the job table is
left unchanged (empty), and in general `add_job` with `"delete_message"`
returns `false` and leaves any jobs table unchanged.  This contradicts
the code's own docstring ("Welcomes them if not kicked (auto-deletes
after 1 minute)"); the claim matches the intent, the code is the slip. -/
theorem welcome_cleanup_job_rejected :
    check_new_member
        ⟨false, false, false, 3, 3, true,
          some "Hello \x7buser_name\x7d, welcome to \x7bchat_name\x7d!"⟩ []
        (fun _ _ => 0) true 555 1000
        ⟨"member", "left", ⟨7, false, none, some "Alice", none, "Alice"⟩, 1, "My Group"⟩ []
      = ([GateEv.send 1 "Hello Alice, welcome to My Group!",
          GateEv.dbAddJob "delete_message" 1 555 1060 false], [])
    ∧ ∀ (c t r : Int) (jobs : List Job),
        add_job "delete_message" c t r jobs = (false, jobs) :=
  ⟨by decide, fun _ _ _ _ => rfl⟩

/-- C2 counterexample.  The claim says the scheduler claims every job row
with `run_at ≤ now` regardless of `job_type`.  A due `delete_message` job
(`run_at = 100 ≤ now = 200`) is not claimed: `get_due_jobs` returns the
empty list because its query restricts to `job_type = 'unpin'`. -/
theorem due_delete_message_job_not_claimed :
    get_due_jobs 200 [⟨1, "delete_message", 5, 6, 100⟩] = []
    ∧ (⟨1, "delete_message", 5, 6, 100⟩ : Job).run_at ≤ 200 := by
  constructor
  · decide
  · decide

/-- C2 amended.  On every cycle the scheduler claims exactly the job rows
with `job_type = 'unpin'` and `run_at ≤ now`; the dispatch handles
`'unpin'` and `'unmute'`, and a claimed job of any other `job_type`
performs no platform action and is deleted through the success path,
without any warning log. -/
theorem scheduler_claims_only_unpin (now : Int) (jobs : List Job) (x j : Job)
    (outc : ExecOutcome)
    (h1 : j.job_type ≠ "unpin") (h2 : j.job_type ≠ "unmute") :
    (x ∈ get_due_jobs now jobs ↔ x ∈ jobs ∧ x.run_at ≤ now ∧ x.job_type = "unpin")
    ∧ processJob outc j = ⟨true, [], false⟩ := by
  constructor
  · unfold get_due_jobs
    rw [mem_sortByRunAt]
    simp [List.mem_filter, and_assoc]
  · simp [processJob, h1, h2]

/-- Witness for C2 amended at a concrete due `unpin` row and a concrete
`delete_message` job. -/
theorem scheduler_claims_only_unpin_witness :
    ((⟨1, "unpin", 5, 6, 100⟩ : Job) ∈ get_due_jobs 200 [⟨1, "unpin", 5, 6, 100⟩]
      ↔ (⟨1, "unpin", 5, 6, 100⟩ : Job) ∈ [(⟨1, "unpin", 5, 6, 100⟩ : Job)]
        ∧ (⟨1, "unpin", 5, 6, 100⟩ : Job).run_at ≤ 200
        ∧ (⟨1, "unpin", 5, 6, 100⟩ : Job).job_type = "unpin")
    ∧ processJob ExecOutcome.success ⟨2, "delete_message", 5, 6, 100⟩
      = ⟨true, [], false⟩ :=
  scheduler_claims_only_unpin 200 [⟨1, "unpin", 5, 6, 100⟩] ⟨1, "unpin", 5, 6, 100⟩
    ⟨2, "delete_message", 5, 6, 100⟩ ExecOutcome.success (by decide) (by decide)

/-- C7.  For a job the scheduler executes (type `'unpin'` or `'unmute'`):
success deletes the row; a `Forbidden`/`BadRequest` error deletes the row
(after the warning log) without retry; any other error leaves the row in
place for the next poll cycle. -/
theorem job_outcome_classification (j : Job)
    (h : j.job_type = "unpin" ∨ j.job_type = "unmute") :
    (processJob ExecOutcome.success j).deleted = true
    ∧ (processJob ExecOutcome.permError j).deleted = true
    ∧ (processJob ExecOutcome.permError j).warned = true
    ∧ (processJob ExecOutcome.otherError j).deleted = false := by
  rcases h with h | h <;> simp [processJob, h]

/-- Witness for C7 at a concrete `unpin` job. -/
theorem job_outcome_classification_witness :
    (processJob ExecOutcome.success ⟨3, "unpin", 8, 9, 50⟩).deleted = true
    ∧ (processJob ExecOutcome.permError ⟨3, "unpin", 8, 9, 50⟩).deleted = true
    ∧ (processJob ExecOutcome.permError ⟨3, "unpin", 8, 9, 50⟩).warned = true
    ∧ (processJob ExecOutcome.otherError ⟨3, "unpin", 8, 9, 50⟩).deleted = false :=
  job_outcome_classification ⟨3, "unpin", 8, 9, 50⟩ (Or.inl rfl)

/-- C9.  When `add_user_warning` fails (returns `-1`), `handle_violation`
returns immediately: its whole effect is the best-effort deletion of the
offending message and the failed ledger increment — no restrict call, no
notice of any kind, no counter reset, and the warnings table is returned
unchanged. -/
theorem warning_add_failure_aborts (wt : String) (chat user : Int) (uname : String)
    (limit now : Int) (restrictOk : Bool) (tbl : WarnTable) :
    handle_violation wt chat user uname limit now false restrictOk tbl
      = ([VEv.delMsg, VEv.dbAddWarning ⟨chat, user, wt⟩ (-1)], tbl) := rfl

/-- C4.  With the ledger increment and the restrict call both succeeding:
when the atomically obtained new count reaches `warn_limit`, the handler
performs exactly one restrict (send permission revoked until now + 1
hour), then deletes the counter row, then sends the mute notice — the
counter row ends absent, not present at zero; when the new count is below
the limit, only the "N/limit" warning notice is sent and the counter row
remains, holding the new count. -/
theorem violation_escalation_spec (wt : String) (chat user : Int) (uname : String)
    (limit now : Int) (tbl : WarnTable) :
    handle_violation wt chat user uname limit now true true tbl =
      (if (warnUpsert tbl ⟨chat, user, wt⟩).1 ≥ limit then
        ([VEv.delMsg, VEv.dbAddWarning ⟨chat, user, wt⟩ (warnUpsert tbl ⟨chat, user, wt⟩).1,
          VEv.restrict chat user (now + 3600), VEv.dbReset ⟨chat, user, wt⟩,
          VEv.send chat ("User " ++ htmlEscape uname ++ " has been muted for 1 hour due to "
            ++ (if wt = "antilink" then "link spam" else "bad words") ++ "."),
          VEv.delNotice],
         warnReset (warnUpsert tbl ⟨chat, user, wt⟩).2 ⟨chat, user, wt⟩)
      else
        ([VEv.delMsg, VEv.dbAddWarning ⟨chat, user, wt⟩ (warnUpsert tbl ⟨chat, user, wt⟩).1,
          VEv.send chat (htmlEscape uname ++ ", "
            ++ (if wt = "antilink" then "Links" else "Bad words")
            ++ " are not allowed. (Warning " ++ toString (warnUpsert tbl ⟨chat, user, wt⟩).1
            ++ "/" ++ toString limit ++ ")"),
          VEv.delNotice],
         (warnUpsert tbl ⟨chat, user, wt⟩).2))
    ∧ warnLookup (handle_violation wt chat user uname limit now true true tbl).2
        ⟨chat, user, wt⟩ =
      (if (warnUpsert tbl ⟨chat, user, wt⟩).1 ≥ limit then none
       else some (warnUpsert tbl ⟨chat, user, wt⟩).1) := by
  constructor
  · by_cases hge : (warnUpsert tbl ⟨chat, user, wt⟩).1 ≥ limit <;>
      simp [handle_violation, hge]
  · by_cases hge : (warnUpsert tbl ⟨chat, user, wt⟩).1 ≥ limit
    · simp [handle_violation, hge, warnLookup_warnReset]
    · simp [handle_violation, hge, warnLookup_warnUpsert]

/-- C8.  When the restrict (mute) call fails after the new count reached
`warn_limit`, the counter row is not reset: it keeps the just-incremented
count (which is at least `warn_limit`), no reset event occurs, and on the
same user's next violation of the same type the new count again reaches
the limit, so the escalation branch runs again (a restrict is attempted
with the fresh expiry). -/
theorem mute_failure_keeps_counter (wt : String) (chat user : Int) (uname : String)
    (limit now now2 : Int) (tbl : WarnTable)
    (hge : (warnUpsert tbl ⟨chat, user, wt⟩).1 ≥ limit) :
    warnLookup (handle_violation wt chat user uname limit now true false tbl).2
        ⟨chat, user, wt⟩ = some (warnUpsert tbl ⟨chat, user, wt⟩).1
    ∧ VEv.dbReset ⟨chat, user, wt⟩
        ∉ (handle_violation wt chat user uname limit now true false tbl).1
    ∧ VEv.restrict chat user (now2 + 3600)
        ∈ (handle_violation wt chat user uname limit now2 true true
            (handle_violation wt chat user uname limit now true false tbl).2).1 := by
  have hres : handle_violation wt chat user uname limit now true false tbl
      = ([VEv.delMsg, VEv.dbAddWarning ⟨chat, user, wt⟩ (warnUpsert tbl ⟨chat, user, wt⟩).1,
          VEv.restrict chat user (now + 3600)],
         (warnUpsert tbl ⟨chat, user, wt⟩).2) := by
    unfold handle_violation
    simp [hge]
  have hlook : warnLookup (warnUpsert tbl ⟨chat, user, wt⟩).2 ⟨chat, user, wt⟩
      = some (warnUpsert tbl ⟨chat, user, wt⟩).1 :=
    warnLookup_warnUpsert tbl ⟨chat, user, wt⟩
  refine ⟨by rw [hres]; exact hlook, by rw [hres]; simp, ?_⟩
  rw [hres]
  have hup2 : (warnUpsert (warnUpsert tbl ⟨chat, user, wt⟩).2 ⟨chat, user, wt⟩).1
      = (warnUpsert tbl ⟨chat, user, wt⟩).1 + 1 :=
    warnUpsert_fst_of_lookup _ _ _ hlook
  have hge2 : (warnUpsert (warnUpsert tbl ⟨chat, user, wt⟩).2 ⟨chat, user, wt⟩).1 ≥ limit := by
    rw [hup2]; omega
  unfold handle_violation
  simp [hge2]

/-- Witness for C8: user at count 2 with limit 3; the failed mute leaves
the row at 3. -/
theorem mute_failure_keeps_counter_witness :
    warnLookup (handle_violation "antilink" 1 7 "Bob" 3 1000 true false
        [(⟨1, 7, "antilink"⟩, 2)]).2 ⟨1, 7, "antilink"⟩
      = some (warnUpsert [(⟨1, 7, "antilink"⟩, 2)] ⟨1, 7, "antilink"⟩).1
    ∧ VEv.dbReset ⟨1, 7, "antilink"⟩
        ∉ (handle_violation "antilink" 1 7 "Bob" 3 1000 true false
            [(⟨1, 7, "antilink"⟩, 2)]).1
    ∧ VEv.restrict 1 7 (2000 + 3600)
        ∈ (handle_violation "antilink" 1 7 "Bob" 3 2000 true true
            (handle_violation "antilink" 1 7 "Bob" 3 1000 true false
              [(⟨1, 7, "antilink"⟩, 2)]).2).1 :=
  mute_failure_keeps_counter "antilink" 1 7 "Bob" 3 1000 2000
    [(⟨1, 7, "antilink"⟩, 2)] (by decide)

/-- C3 counterexample.  A group with `antibot_enabled = false` and
blacklist `["badbot"]`; a bot joins whose probe string is `"badbot"`, with
a similarity oracle consistent with `fuzz.token_set_ratio` on identical
strings (score 100).  The gate issues a removal (ban) of the bot: with
anti-bot off, the join falls through to the blacklist check, refuting
"never issues a removal ... no matter what terms are on the blacklist". -/
theorem antibot_off_bot_banned_by_blacklist :
    (⟨false, false, false, 3, 3, false, none⟩ : GroupSettings).antibot_enabled = false
    ∧ (⟨42, true, some "badbot", none, none, "badbot"⟩ : TgUser).is_bot = true
    ∧ (check_new_member ⟨false, false, false, 3, 3, false, none⟩ ["badbot"]
        (fun t p => if t = p then 100 else 0) true 0 0
        ⟨"member", "left", ⟨42, true, some "badbot", none, none, "badbot"⟩, 1, "G"⟩ []).1
      = [GateEv.banUser 1 42,
         GateEv.send 1 "Auto-removal: badbot. (Blacklist match: <b>badbot</b>).",
         GateEv.delSent] := by
  refine ⟨rfl, rfl, ?_⟩
  decide

/-- C3 amended.  For a join in a group with `antibot_enabled = false`
(bot or not), the anti-bot branch issues no removal, but the join still
passes through the blacklist check: a removal is issued if and only if
the probe string is non-empty and some blacklist term scores at least 90
against it. -/
theorem antibot_off_ban_iff_blacklist_hit
    (settings : GroupSettings) (blacklist : List String)
    (ratio : String → String → Nat) (banOk : Bool) (wId now : Int)
    (ev : JoinEvent) (jobs : List Job)
    (hoff : settings.antibot_enabled = false)
    (hnew : ev.new_status = "member")
    (hold : ["creator", "administrator", "member"].contains ev.old_status = false) :
    GateEv.banUser ev.chat_id ev.user.id
        ∈ (check_new_member settings blacklist ratio banOk wId now ev jobs).1
      ↔ probeText ev.user ≠ ""
        ∧ ∃ t ∈ blacklist, 90 ≤ ratio t (probeText ev.user) := by
  unfold check_new_member
  rw [if_neg (by simp [hnew]), if_neg (by simpa using hold), if_neg (by simp [hoff])]
  cases hhit : blacklistHit blacklist ratio (probeText ev.user) with
  | some term =>
    have hp : probeText ev.user ≠ "" := by
      intro h0
      unfold blacklistHit at hhit
      rw [if_neg (by simp [h0])] at hhit
      exact Option.noConfusion hhit
    have hfind : blacklist.find? (fun t => decide (90 ≤ ratio t (probeText ev.user)))
        = some term := by
      unfold blacklistHit at hhit
      rwa [if_pos hp] at hhit
    have h90 : 90 ≤ ratio term (probeText ev.user) := by
      simpa using List.find?_some hfind
    refine iff_of_true ?_ ⟨hp, term, List.mem_of_find?_eq_some hfind, h90⟩
    cases banOk <;> simp
  | none =>
    refine iff_of_false ?_ ?_
    · cases hwel : settings.welcome_enabled <;>
        cases hmsg : truthy settings.welcome_message <;> simp
    · rintro ⟨hp, t, hmem, hge⟩
      unfold blacklistHit at hhit
      rw [if_pos hp] at hhit
      exact (List.find?_eq_none.mp hhit t hmem) (decide_eq_true hge)

/-- Witness for C3 amended: a human join with an empty blacklist is not
banned. -/
theorem antibot_off_ban_iff_blacklist_hit_witness :
    GateEv.banUser 1 7
        ∈ (check_new_member ⟨false, false, false, 3, 3, false, none⟩ []
            (fun _ _ => 0) true 0 0
            ⟨"member", "left", ⟨7, false, none, some "Alice", none, "Alice"⟩, 1, "G"⟩ []).1
      ↔ probeText ⟨7, false, none, some "Alice", none, "Alice"⟩ ≠ ""
        ∧ ∃ t ∈ ([] : List String), 90 ≤ (0 : Nat) :=
  antibot_off_ban_iff_blacklist_hit ⟨false, false, false, 3, 3, false, none⟩ []
    (fun _ _ => 0) true 0 0
    ⟨"member", "left", ⟨7, false, none, some "Alice", none, "Alice"⟩, 1, "G"⟩ []
    rfl rfl (by decide)

/-- C5 counterexample.  A join event with a non-empty probe string
(`"robospam"`) and an empty blacklist — so vacuously every term's ratio
is below 90 — in a group with `antibot_enabled = true` whose principal is
a bot: a removal is still issued by the anti-bot branch, refuting "if
every term's ratio is below 90, no removal occurs" as a statement about
all join events. -/
theorem bot_ban_without_blacklist_match :
    probeText ⟨9, true, some "robospam", none, none, "RoboSpam"⟩ = "robospam"
    ∧ (check_new_member ⟨true, false, false, 3, 3, false, none⟩ []
        (fun _ _ => 0) true 0 0
        ⟨"member", "left", ⟨9, true, some "robospam", none, none, "RoboSpam"⟩, 1, "G"⟩ []).1
      = [GateEv.banUser 1 9, GateEv.send 1 "Removed bot RoboSpam.", GateEv.delSent] := by
  constructor
  · decide
  · decide

/-- C5 amended.  For a join that is not removed by the anti-bot branch
(`is_bot && antibot_enabled` is false) and whose probe string is
non-empty, a removal is issued iff some blacklist term scores at least 90
against the probe; and the matched term is the first such term in scan
order — terms after the first hit are never consulted. -/
theorem blacklist_ban_iff_ratio_threshold
    (settings : GroupSettings) (blacklist : List String)
    (ratio : String → String → Nat) (banOk : Bool) (wId now : Int)
    (ev : JoinEvent) (jobs : List Job)
    (hpass : (ev.user.is_bot && settings.antibot_enabled) = false)
    (hnew : ev.new_status = "member")
    (hold : ["creator", "administrator", "member"].contains ev.old_status = false)
    (hprobe : probeText ev.user ≠ "") :
    (GateEv.banUser ev.chat_id ev.user.id
        ∈ (check_new_member settings blacklist ratio banOk wId now ev jobs).1
      ↔ ∃ t ∈ blacklist, 90 ≤ ratio t (probeText ev.user))
    ∧ ∀ (l1 : List String) (t : String) (l2 : List String),
        blacklist = l1 ++ t :: l2 →
        (∀ x ∈ l1, ratio x (probeText ev.user) < 90) →
        90 ≤ ratio t (probeText ev.user) →
        blacklistHit blacklist ratio (probeText ev.user) = some t := by
  constructor
  · unfold check_new_member
    rw [if_neg (by simp [hnew]), if_neg (by simpa using hold), if_neg (by simp [hpass])]
    cases hhit : blacklistHit blacklist ratio (probeText ev.user) with
    | some term =>
      have hfind : blacklist.find? (fun t => decide (90 ≤ ratio t (probeText ev.user)))
          = some term := by
        unfold blacklistHit at hhit
        rwa [if_pos hprobe] at hhit
      have h90 : 90 ≤ ratio term (probeText ev.user) := by
        simpa using List.find?_some hfind
      refine iff_of_true ?_ ⟨term, List.mem_of_find?_eq_some hfind, h90⟩
      cases banOk <;> simp
    | none =>
      refine iff_of_false ?_ ?_
      · cases hwel : settings.welcome_enabled <;>
          cases hmsg : truthy settings.welcome_message <;> simp
      · rintro ⟨t, hmem, hge⟩
        unfold blacklistHit at hhit
        rw [if_pos hprobe] at hhit
        exact (List.find?_eq_none.mp hhit t hmem) (decide_eq_true hge)
  · intro l1 t l2 hdec hlow hht
    unfold blacklistHit
    rw [if_pos hprobe, hdec]
    exact find?_first_hit _ l1 t l2
      (fun x hx => decide_eq_false (not_le.mpr (hlow x hx))) (decide_eq_true hht)

/-- Witness for C5 amended: Alice's probe `"alice"` hits the first of two
blacklist terms at score 100. -/
theorem blacklist_ban_iff_ratio_threshold_witness :
    (GateEv.banUser 1 7
        ∈ (check_new_member ⟨false, false, false, 3, 3, false, none⟩ ["alice", "bob"]
            (fun t p => if t = p then 100 else 0) true 0 0
            ⟨"member", "left", ⟨7, false, none, some "Alice", none, "Alice"⟩, 1, "G"⟩ []).1
      ↔ ∃ t ∈ ["alice", "bob"],
          90 ≤ (if t = probeText ⟨7, false, none, some "Alice", none, "Alice"⟩ then 100 else 0))
    ∧ ∀ (l1 : List String) (t : String) (l2 : List String),
        ["alice", "bob"] = l1 ++ t :: l2 →
        (∀ x ∈ l1,
          (if x = probeText ⟨7, false, none, some "Alice", none, "Alice"⟩ then 100 else 0) < 90) →
        90 ≤ (if t = probeText ⟨7, false, none, some "Alice", none, "Alice"⟩ then 100 else 0) →
        blacklistHit ["alice", "bob"] (fun t p => if t = p then 100 else 0)
            (probeText ⟨7, false, none, some "Alice", none, "Alice"⟩) = some t :=
  blacklist_ban_iff_ratio_threshold ⟨false, false, false, 3, 3, false, none⟩
    ["alice", "bob"] (fun t p => if t = p then 100 else 0) true 0 0
    ⟨"member", "left", ⟨7, false, none, some "Alice", none, "Alice"⟩, 1, "G"⟩ []
    (by decide) rfl (by decide) (by decide)

/-- C6 counterexample.  The message text `"see example.com"` already
matches the plain-text link pattern, so the entity loop never runs and
the target URL of the attached `text_link` entity (visible text differs
from `https://evil.org`) is NOT folded into the check text.  Although the
allow-list contains `evil.org` — so the claim predicts the message is
permitted — the code raises an `antilink` violation, and the check text
does not contain the entity's URL. -/
theorem text_link_url_not_folded :
    handle_message ⟨false, true, false, 3, 3, false, none⟩ [] ["evil.org"] false false
        ⟨"see example.com", [⟨"text_link", some "https://evil.org"⟩]⟩ = some "antilink"
    ∧ hasLinkMsg ⟨"see example.com", [⟨"text_link", some "https://evil.org"⟩]⟩ = true
    ∧ containsSub (linkCheckText ⟨"see example.com",
        [⟨"text_link", some "https://evil.org"⟩]⟩).data "evil.org".data = false := by
  refine ⟨?_, ?_, ?_⟩ <;> decide

/-- C6 amended.  For a message that reaches the link check (neither guard
fires and the word filter does not hit) and that the filter classifies as
containing a link: the message is permitted iff some allow-listed domain
occurs as a substring of the combined check text, and otherwise it raises
an `antilink` violation; the target URL of the first `url`/`text_link`
entity is folded into that check text only when the plain-text pattern
found no link (in which case the check text is the lower-cased message
text alone). -/
theorem antilink_allow_iff_domain_in_check_text
    (settings : GroupSettings) (words allowed : List String) (m : Msg)
    (hlink : settings.antilink_enabled = true)
    (htext : m.text ≠ "")
    (hword : (settings.antiword_enabled && !words.isEmpty
      && words.any (fun w => containsSub (lowerStr m.text).data w.data)) = false)
    (hhas : hasLinkMsg m = true) :
    (handle_message settings words allowed false false m = none
      ↔ ∃ d ∈ allowed, containsSub (linkCheckText m).data d.data = true)
    ∧ (handle_message settings words allowed false false m = some "antilink"
      ↔ allowed.any (fun d => containsSub (linkCheckText m).data d.data) = false)
    ∧ (linkRegexMatches (lowerStr m.text) = true → linkCheckText m = lowerStr m.text) := by
  unfold hasLinkMsg at hhas
  refine ⟨?_, ?_, ?_⟩
  · unfold handle_message
    rw [if_neg (by simp), if_neg htext, if_neg (by simp [hlink]), if_neg (by simp),
      if_neg (by simp [hword]), if_pos hlink, if_pos hhas]
    by_cases hall : allowed.any (fun d => containsSub (linkScan m).2.data d.data) = true
    · rw [if_pos hall]
      simp only [linkCheckText]
      simpa using hall
    · rw [if_neg hall]
      simp only [linkCheckText, List.any_eq_true] at hall ⊢
      simp only [reduceCtorEq, false_iff]
      exact hall
  · unfold handle_message
    rw [if_neg (by simp), if_neg htext, if_neg (by simp [hlink]), if_neg (by simp),
      if_neg (by simp [hword]), if_pos hlink, if_pos hhas]
    by_cases hall : allowed.any (fun d => containsSub (linkScan m).2.data d.data) = true
    · rw [if_pos hall]
      simp [linkCheckText, hall]
    · rw [if_neg hall]
      simp only [Bool.not_eq_true] at hall
      simp [linkCheckText, hall]
  · intro hre
    unfold linkCheckText linkScan
    rw [if_pos hre]

/-- Witness for C6 amended: a `text_link` on plain text, where the URL is
folded in and its allow-listed domain permits the message. -/
theorem antilink_allow_iff_domain_in_check_text_witness :
    (handle_message ⟨false, true, false, 3, 3, false, none⟩ [] ["evil.org"] false false
        ⟨"click here", [⟨"text_link", some "https://evil.org"⟩]⟩ = none
      ↔ ∃ d ∈ ["evil.org"],
          containsSub (linkCheckText
            ⟨"click here", [⟨"text_link", some "https://evil.org"⟩]⟩).data d.data = true)
    ∧ (handle_message ⟨false, true, false, 3, 3, false, none⟩ [] ["evil.org"] false false
        ⟨"click here", [⟨"text_link", some "https://evil.org"⟩]⟩ = some "antilink"
      ↔ ["evil.org"].any (fun d => containsSub (linkCheckText
          ⟨"click here", [⟨"text_link", some "https://evil.org"⟩]⟩).data d.data) = false)
    ∧ (linkRegexMatches (lowerStr "click here") = true
      → linkCheckText ⟨"click here", [⟨"text_link", some "https://evil.org"⟩]⟩
          = lowerStr "click here") :=
  antilink_allow_iff_domain_in_check_text ⟨false, true, false, 3, 3, false, none⟩ []
    ["evil.org"] ⟨"click here", [⟨"text_link", some "https://evil.org"⟩]⟩
    rfl (by decide) (by decide) (by decide)

/-- C10.  For a message that violates both filters in a group with both
filters enabled (some antiword term occurs in the lower-cased text, and
the message has a link not covered by the allow-list), the handler
processes exactly the `antiword` violation: the word check runs first and
the handler returns after the hit, so the result is `some "antiword"` —
a single `handle_violation` call, hence at most one message deletion and
one warning increment for the message. -/
theorem word_violation_takes_priority
    (settings : GroupSettings) (words allowed : List String) (m : Msg)
    (hword_on : settings.antiword_enabled = true)
    (hlink_on : settings.antilink_enabled = true)
    (htext : m.text ≠ "")
    (hwords : words.isEmpty = false)
    (hhit : words.any (fun w => containsSub (lowerStr m.text).data w.data) = true)
    (hhas : hasLinkMsg m = true)
    (hnotallowed : allowed.any (fun d => containsSub (linkCheckText m).data d.data) = false) :
    handle_message settings words allowed false false m = some "antiword" := by
  unfold handle_message
  rw [if_neg (by simp), if_neg htext, if_neg (by simp [hword_on]), if_neg (by simp),
    if_pos (by simp [hword_on, hwords, hhit])]

/-- Witness for C10: "SPAM at evil.org" with antiword term `"spam"` and an
empty allow-list triggers only the `antiword` violation. -/
theorem word_violation_takes_priority_witness :
    handle_message ⟨false, true, true, 3, 3, false, none⟩ ["spam"] [] false false
        ⟨"SPAM at evil.org", []⟩ = some "antiword" :=
  word_violation_takes_priority ⟨false, true, true, 3, 3, false, none⟩ ["spam"] []
    ⟨"SPAM at evil.org", []⟩ rfl rfl (by decide) (by decide) (by decide) (by decide)
    (by decide)

end Ultarpair
